import Mathlib

/-!
Verification development for the intelli-summary document/image analysis
pipeline.  The definitions below are a shallow embedding of the TypeScript
source: the per-call validation and retry/backoff/timeout logic of
src/lib/text-extraction.ts and src/lib/summary-generation.ts, the per-stage
eligibility predicates and batch loops of the DocumentAnalyzer component,
and the analyze-image API route with its degraded fallback.  Remote calls
(fetch plus response parsing) are modelled as oracles: a function from the
attempt number to either a typed success value or a thrown JavaScript error;
everything the orchestration layer does with those outcomes is embedded
concretely.
-/

/-! ## JavaScript string primitives

JavaScript string operations are modelled on the character list of the
Lean string, so that every definition is executable by the kernel. -/

/-- Model of JavaScript String.prototype.includes: substring containment. -/
def listContains (hay needle : List Char) : Bool :=
  match hay with
  | [] => needle.isEmpty
  | _ :: t => needle.isPrefixOf hay || listContains t needle

/-- Model of s.includes(sub) for JavaScript strings. -/
def jsIncludes (s sub : String) : Bool := listContains s.data sub.data

/-- Model of s.startsWith(p). -/
def jsStartsWith (s p : String) : Bool := p.data.isPrefixOf s.data

/-- Model of s.endsWith(suffixStr). -/
def jsEndsWith (s suffixStr : String) : Bool := suffixStr.data.isSuffixOf s.data

/-- Model of s.toLowerCase(), character by character. -/
def jsToLower (s : String) : String := String.mk (s.data.map Char.toLower)

/-- Model of s.trim() on the underlying character list. -/
def jsTrimData (l : List Char) : List Char :=
  ((l.dropWhile Char.isWhitespace).reverse.dropWhile Char.isWhitespace).reverse

/-- Counts maximal runs of non-whitespace characters.  The boolean argument
records whether the previous character was inside a word. -/
def wordCountAux : List Char → Bool → Nat
  | [], _ => 0
  | c :: cs, inWord =>
    if c.isWhitespace then wordCountAux cs false
    else (if inWord then 0 else 1) + wordCountAux cs true

/-- Word count used by generateSummary:
text.trim().split(on whitespace).filter(nonempty).length.  Splitting on
whitespace runs and dropping empty tokens counts exactly the maximal
non-whitespace runs, which is what wordCountAux computes. -/
def summaryWordCount (text : String) : Nat := wordCountAux text.data false

/-- Model of JavaScript Math.round on exact rational arithmetic:
round half toward positive infinity. -/
def jsRound (q : ℚ) : ℤ := Int.floor (q + 1 / 2)

/-! ## Data model: files, errors, call outcomes -/

/-- The "pdf" | "image" union used throughout the source. -/
inductive FileType where
  | pdf
  | image
deriving DecidableEq, Repr

/-- The parts of a browser File object the core reads: name, byte size and
MIME type. -/
structure JsFile where
  name : String
  size : Nat
  type : String
deriving DecidableEq, Repr

/-- A thrown JavaScript Error as observed by the retry loops: its name
(for the AbortError check) and its message (for classification). -/
structure JsError where
  name : String
  message : String
deriving DecidableEq, Repr

/-- Outcome of one remote attempt (the whole try-block body: fetch, response
parsing and result construction): either the typed result or a thrown
error. -/
inductive CallOutcome (α : Type) where
  | success (value : α)
  | failure (error : JsError)
deriving DecidableEq

/-- Result of a whole call to one of the resilient executors: the returned
value or the thrown message. -/
inductive CallResult (α : Type) where
  | ok (value : α)
  | thrown (message : String)
deriving DecidableEq

/-- Trace of one executor call: final result, number of remote invocations
performed, and every backoff wait executed, tagged with the attempt number
after which it happened. -/
structure RunTrace (α : Type) where
  result : CallResult α
  attempts : Nat
  waitEvents : List (Nat × Nat)
deriving DecidableEq

/-- Total milliseconds waited after attempt k (before attempt k + 1). -/
def waitBeforeNext (tr : RunTrace α) (k : Nat) : Nat :=
  ((tr.waitEvents.filter (fun kw => kw.1 = k)).map (fun kw => kw.2)).sum

/-- The ExtractedText record of src/lib/text-extraction.ts. -/
structure ExtractedText where
  text : String
  wordCount : Nat
  characterCount : Nat
  fileName : String
  fileType : FileType
deriving DecidableEq, Repr

/-- The "short" | "medium" | "long" union of src/lib/summary-generation.ts. -/
inductive SummaryLength where
  | short
  | medium
  | long
deriving DecidableEq, Repr

/-- The GeneratedSummary record of src/lib/summary-generation.ts. -/
structure GeneratedSummary where
  summary : String
  keyPoints : String
  summaryLength : SummaryLength
  fileName : String
  wordCount : Nat
  originalWordCount : Nat
deriving DecidableEq, Repr

/-! ## Pre-dispatch validation (src/lib/text-extraction.ts) -/

/-- The regular expression (jpg|jpeg|png|gif|bmp) anchored at the end of the
lowercased file name, from extractTextFromFile. -/
def imageExtMatch (lowerName : String) : Bool :=
  jsEndsWith lowerName ".jpg" || jsEndsWith lowerName ".jpeg" ||
    jsEndsWith lowerName ".png" || jsEndsWith lowerName ".gif" ||
    jsEndsWith lowerName ".bmp"

/-- The inline validation performed by extractTextFromFile before its first
remote call (lines 13 to 33 of src/lib/text-extraction.ts).  Returns the
message of the error it throws, or none when the file passes. -/
def extractValidationError (file : Option JsFile) (t : FileType) : Option String :=
  match file with
  | none => some "Invalid file: File is empty or corrupted"
  | some f =>
    if f.size = 0 then some "Invalid file: File is empty or corrupted"
    else if f.size > 50 * 1024 * 1024 then some "File too large: Maximum file size is 50MB"
    else if t == FileType.pdf && !(jsIncludes f.type "pdf") &&
        !(jsEndsWith (jsToLower f.name) ".pdf") then
      some "Invalid PDF file: File does not appear to be a valid PDF"
    else if t == FileType.image && !(jsStartsWith f.type "image/") &&
        !(imageExtMatch (jsToLower f.name)) then
      some "Invalid image file: Supported formats are JPG, PNG, GIF, BMP"
    else none

/-- Return type of the standalone validateFile helper. -/
structure ValidationResult where
  isValid : Bool
  error : Option String
deriving DecidableEq, Repr

/-- The validImageTypes list of validateFile. -/
def validImageTypes : List String :=
  ["image/jpeg", "image/jpg", "image/png", "image/gif", "image/bmp"]

/-- The validExtensions list of validateFile. -/
def validImageExtensions : List String := [".jpg", ".jpeg", ".png", ".gif", ".bmp"]

/-- The standalone validateFile helper (lines 124 to 154 of
src/lib/text-extraction.ts). -/
def validateFile (file : Option JsFile) (t : FileType) : ValidationResult :=
  match file with
  | none => ⟨false, some "No file provided"⟩
  | some f =>
    if f.size = 0 then ⟨false, some "File is empty"⟩
    else if f.size > 50 * 1024 * 1024 then ⟨false, some "File size exceeds 50MB limit"⟩
    else if t == FileType.pdf then
      if !(jsIncludes f.type "pdf") && !(jsEndsWith (jsToLower f.name) ".pdf") then
        ⟨false, some "File is not a valid PDF"⟩
      else ⟨true, none⟩
    else if t == FileType.image then
      if !(validImageTypes.any (fun s => jsIncludes f.type s)) &&
          !(validImageExtensions.any (fun e => jsEndsWith (jsToLower f.name) e)) then
        ⟨false, some "File is not a supported image format"⟩
      else ⟨true, none⟩
    else ⟨true, none⟩

/-- The input validation performed by generateSummary before its first remote
call (lines 19 to 38 of src/lib/summary-generation.ts).  The typeof check
is discharged by typing. -/
def summaryValidationError (text fileName : String) : Option String :=
  if text.data.isEmpty || (jsTrimData text.data).isEmpty then
    some "Invalid input: Text cannot be empty"
  else if fileName.data.isEmpty then some "Invalid input: File name is required"
  else if summaryWordCount text < 10 then
    some "Text too short: Minimum 10 words required for summarization"
  else if summaryWordCount text > 15000 then
    some "Text too long: Maximum 15,000 words supported for summarization"
  else none

/-! ## The resilient retry executor

Both executors share the identical loop shape; they differ only in the
timeout message, the messages classified as validation, the rate-limit
backoff multiplier and the final failure message.  Those four points are
collected in a policy record and each source function instantiates it. -/

/-- The per-stage retry parameters. -/
structure RetryPolicy where
  maxRetries : Nat
  timeoutMsg : String
  isValidationMsg : String → Bool
  rateWaitMs : Nat → Nat
  exhaustMsg : Option JsError → String

/-- Model of lastError?.message || "Unknown error". -/
def lastErrMsg : Option JsError → String
  | none => "Unknown error"
  | some e => if e.message.data.isEmpty then "Unknown error" else e.message

/-- The shared retry loop of extractTextFromFile and generateSummary.
attempt is the 1-based loop counter; fuel is the number of iterations the
for-loop still allows, so a call enters with attempt 1 and fuel maxRetries.
Each executed iteration performs exactly one remote invocation.  On a
thrown AbortError the executor rethrows the timeout message; on a message
classified as validation it rethrows that message; otherwise a rate-limited
message first waits rateWaitMs attempt, then, unless this was the final
attempt, the loop waits the standard backoff of 2 ^ (attempt - 1) * 1000
milliseconds and retries. -/
def retryGo (P : RetryPolicy) (call : Nat → CallOutcome α) (attempt fuel : Nat)
    (lastError : Option JsError) : RunTrace α :=
  match fuel with
  | 0 => ⟨.thrown (P.exhaustMsg lastError), 0, []⟩
  | fuel + 1 =>
    match call attempt with
    | .success r => ⟨.ok r, 1, []⟩
    | .failure e =>
      if e.name = "AbortError" then
        ⟨.thrown P.timeoutMsg, 1, []⟩
      else if P.isValidationMsg e.message then
        ⟨.thrown e.message, 1, []⟩
      else
        let rateWaits : List (Nat × Nat) :=
          if jsIncludes e.message "rate limit" then [(attempt, P.rateWaitMs attempt)] else []
        if attempt = P.maxRetries then
          ⟨.thrown (P.exhaustMsg (some e)), 1, rateWaits⟩
        else
          let rest := retryGo P call (attempt + 1) fuel (some e)
          ⟨rest.result, rest.attempts + 1,
            rateWaits ++ (attempt, 2 ^ (attempt - 1) * 1000) :: rest.waitEvents⟩

/-- The stage-dependent half of the timeout message of extractTextFromFile. -/
def extractTimeoutKind : FileType → String
  | FileType.pdf => "PDF parsing"
  | FileType.image => "Image OCR"

/-- The timeout message thrown by extractTextFromFile on an AbortError. -/
def extractTimeoutMsg (t : FileType) : String :=
  "Timeout: " ++ extractTimeoutKind t ++ " took too long. Try with a smaller file."

/-- The message thrown by extractTextFromFile when all attempts fail
(MAX_RETRIES is the constant 3). -/
def extractExhaustMsg (lastError : Option JsError) : String :=
  "Failed after 3 attempts: " ++ lastErrMsg lastError

/-- Messages extractTextFromFile refuses to retry. -/
def extractIsValidationMsg (m : String) : Bool :=
  jsIncludes m "Invalid" || jsIncludes m "too large"

/-- The retry policy hard-coded in extractTextFromFile. -/
def extractPolicy (t : FileType) : RetryPolicy where
  maxRetries := 3
  timeoutMsg := extractTimeoutMsg t
  isValidationMsg := extractIsValidationMsg
  rateWaitMs := fun attempt => 2 ^ attempt * 1000
  exhaustMsg := extractExhaustMsg

/-- extractTextFromFile of src/lib/text-extraction.ts: inline validation
followed by the retry loop with MAX_RETRIES 3.  The oracle stands for the
fetch of /api/extract-text together with response parsing and construction
of the ExtractedText record. -/
def extractTextFromFile (file : Option JsFile) (t : FileType)
    (call : Nat → CallOutcome ExtractedText) : RunTrace ExtractedText :=
  match extractValidationError file t with
  | some msg => ⟨.thrown msg, 0, []⟩
  | none => retryGo (extractPolicy t) call 1 3 none

/-- The message thrown by generateSummary when all attempts fail. -/
def summaryExhaustMsg (lastError : Option JsError) : String :=
  "Summary generation failed after 3 attempts: " ++ lastErrMsg lastError

/-- Messages generateSummary refuses to retry. -/
def summaryIsValidationMsg (m : String) : Bool :=
  jsIncludes m "Invalid input" || jsIncludes m "too short" || jsIncludes m "too long"

/-- The retry policy hard-coded in generateSummary: the rate-limit wait uses
a 2000 millisecond base instead of 1000. -/
def summaryPolicy : RetryPolicy where
  maxRetries := 3
  timeoutMsg := "Timeout: Summary generation took too long. Try with shorter text."
  isValidationMsg := summaryIsValidationMsg
  rateWaitMs := fun attempt => 2 ^ attempt * 2000
  exhaustMsg := summaryExhaustMsg

/-- generateSummary of src/lib/summary-generation.ts: input validation
followed by the retry loop with MAX_RETRIES 3.  The summaryLength argument
only travels to the remote call, which the oracle models. -/
def generateSummary (text fileName : String) (_len : SummaryLength)
    (call : Nat → CallOutcome GeneratedSummary) : RunTrace GeneratedSummary :=
  match summaryValidationError text fileName with
  | some msg => ⟨.thrown msg, 0, []⟩
  | none => retryGo summaryPolicy call 1 3 none

/-! ## Analysis result payloads (client types of the unnamed library files)

Nested payload fields that no orchestration predicate reads (sections,
tables, entities, sentiment, metadata timestamps) are elided; the fields the
core branches on are kept verbatim. -/

/-- DocumentStructureAnalysis: the scheduler only reads documentType, which
at runtime is a plain string compared with includes on a string list. -/
structure DocumentStructureAnalysis where
  documentType : String
  confidence : ℚ
deriving DecidableEq

/-- DocumentQualityMetrics of the advanced-document-analysis module. -/
structure DocumentQualityMetrics where
  readabilityScore : ℚ
  structureScore : ℚ
  completenessScore : ℚ
  consistencyScore : ℚ
  overallQuality : String
  recommendations : List String
deriving DecidableEq

/-- One invoice line item of the specialized invoice payload. -/
structure InvoiceLineItem where
  description : String
  quantity : ℚ
  unitPrice : ℚ
  total : ℚ
deriving DecidableEq

/-- The invoice payload of SpecializedDocumentAnalysis. -/
structure InvoiceAnalysis where
  invoiceNumber : String
  totalAmount : ℚ
  currency : String
  dueDate : String
  vendor : String
  lineItems : List InvoiceLineItem
deriving DecidableEq

/-- One obligation entry of the contract payload. -/
structure ContractObligation where
  party : String
  obligation : String
deriving DecidableEq

/-- The contract payload of SpecializedDocumentAnalysis. -/
structure ContractAnalysis where
  parties : List String
  effectiveDate : String
  expirationDate : String
  keyTerms : List String
  obligations : List ContractObligation
deriving DecidableEq

/-- One experience entry of the resume payload. -/
structure ExperienceEntry where
  company : String
  position : String
  duration : String
  responsibilities : List String
deriving DecidableEq

/-- One education entry of the resume payload. -/
structure EducationEntry where
  institution : String
  degree : String
  year : String
deriving DecidableEq

/-- Contact information of the resume payload. -/
structure ContactDetails where
  email : Option String
  phone : Option String
  location : Option String
deriving DecidableEq

/-- The resume payload of SpecializedDocumentAnalysis. -/
structure ResumeAnalysis where
  candidateName : String
  contactDetails : ContactDetails
  experience : List ExperienceEntry
  skills : List String
  education : List EducationEntry
deriving DecidableEq

/-- SpecializedDocumentAnalysis: exactly one of the three optional payloads
is set by the specialized route. -/
structure SpecializedDocumentAnalysis where
  invoice : Option InvoiceAnalysis := none
  contract : Option ContractAnalysis := none
  resume : Option ResumeAnalysis := none
deriving DecidableEq

/-- A detected object of the analyze-image route: label and the rounded
percentage confidence. -/
structure DetectedObject where
  label : String
  confidence : ℤ
deriving DecidableEq

/-- The objectDetection part of the analyze-image response. -/
structure ObjectDetection where
  objects : List DetectedObject
  totalObjects : Nat
deriving DecidableEq

/-- The sceneAnalysis part of the analyze-image response. -/
structure SceneAnalysis where
  description : String
  tags : List String
  confidence : Nat
deriving DecidableEq

/-- One OCR text region of the analyze-image response. -/
structure TextRegion where
  text : String
  confidence : Nat
deriving DecidableEq

/-- The textAnalysis part of the analyze-image response. -/
structure TextAnalysisPart where
  extractedText : String
  textRegions : List TextRegion
deriving DecidableEq

/-- The visualFeatures part of the analyze-image response. -/
structure VisualFeatures where
  dominantColors : List String
  imageType : String
  hasText : Bool
  isPhoto : Bool
  isDrawing : Bool
deriving DecidableEq

/-- The metadata part of the analyze-image response; the wall-clock
analysisTimestamp is elided. -/
structure ImageMetadata where
  width : Nat
  height : Nat
  format : String
  fileSize : Nat
deriving DecidableEq

/-- The full analysis payload returned by the analyze-image route. -/
structure ImageAnalysisResult where
  objectDetection : ObjectDetection
  sceneAnalysis : SceneAnalysis
  textAnalysis : TextAnalysisPart
  visualFeatures : VisualFeatures
  metadata : ImageMetadata
deriving DecidableEq

/-! ## Per-file orchestrator state (the UploadedFile record of the
DocumentAnalyzer component) -/

/-- The mutable per-file record of the DocumentAnalyzer component.  For each
stage it holds the optional success payload, the in-progress flag and the
optional error message; a stage is not started when both payload and error
are absent. -/
structure UploadedFileState where
  id : String
  file : JsFile
  ftype : FileType
  extractedText : Option ExtractedText := none
  isExtracting : Bool := false
  extractionError : Option String := none
  generatedSummary : Option GeneratedSummary := none
  isSummarizing : Bool := false
  summaryError : Option String := none
  imageAnalysis : Option ImageAnalysisResult := none
  isAnalyzingImage : Bool := false
  imageAnalysisError : Option String := none
  documentStructure : Option DocumentStructureAnalysis := none
  isAnalyzingStructure : Bool := false
  structureAnalysisError : Option String := none
  documentQuality : Option DocumentQualityMetrics := none
  isAnalyzingQuality : Bool := false
  qualityAnalysisError : Option String := none
  specializedAnalysis : Option SpecializedDocumentAnalysis := none
  isAnalyzingSpecialized : Bool := false
  specializedAnalysisError : Option String := none
deriving DecidableEq

/-! ## Stage eligibility predicates

Each predicate is the filter or some-condition the component applies when
selecting work for the corresponding stage. -/

/-- Filter of extractTextFromFiles: no text yet and no extraction error. -/
def needsExtraction (f : UploadedFileState) : Bool :=
  f.extractedText.isNone && f.extractionError.isNone

/-- Filter of generateSummaries. -/
def needsSummary (f : UploadedFileState) : Bool :=
  f.extractedText.isSome && f.generatedSummary.isNone && f.summaryError.isNone

/-- Filter of analyzeImages. -/
def needsImageAnalysis (f : UploadedFileState) : Bool :=
  f.ftype == FileType.image && f.imageAnalysis.isNone && f.imageAnalysisError.isNone

/-- Filter of analyzeDocumentStructures. -/
def needsStructureAnalysis (f : UploadedFileState) : Bool :=
  f.extractedText.isSome && f.documentStructure.isNone && f.structureAnalysisError.isNone

/-- Filter of analyzeDocumentQualities. -/
def needsQualityAnalysis (f : UploadedFileState) : Bool :=
  f.extractedText.isSome && f.documentQuality.isNone && f.qualityAnalysisError.isNone

/-- The document types eligible for specialized analysis. -/
def specializedTypes : List String := ["invoice", "contract", "resume"]

/-- Filter of performSpecializedAnalyses and condition of
canPerformSpecialized: text extracted, structure analyzed, specialized
analysis not yet attempted, and the classified document type is one of the
three supported kinds. -/
def needsSpecializedAnalysis (f : UploadedFileState) : Bool :=
  f.extractedText.isSome &&
    (match f.documentStructure with
     | none => false
     | some ds =>
       f.specializedAnalysis.isNone && f.specializedAnalysisError.isNone &&
         (specializedTypes.any (fun s => s == ds.documentType)))

/-- The six pipeline stages. -/
inductive StageId where
  | extract
  | summarize
  | analyzeImageStage
  | analyzeStructure
  | analyzeQuality
  | analyzeSpecialized
deriving DecidableEq, Repr

/-- The eligibility predicate of one stage against one file record. -/
def stageRunnable (f : UploadedFileState) : StageId → Bool
  | .extract => needsExtraction f
  | .summarize => needsSummary f
  | .analyzeImageStage => needsImageAnalysis f
  | .analyzeStructure => needsStructureAnalysis f
  | .analyzeQuality => needsQualityAnalysis f
  | .analyzeSpecialized => needsSpecializedAnalysis f

/-- All stages in declaration order. -/
def allStages : List StageId :=
  [.extract, .summarize, .analyzeImageStage, .analyzeStructure, .analyzeQuality,
    .analyzeSpecialized]

/-- The currently runnable (file id, stage) pairs over a collection of file
records: for each stage, the files selected by the filter that stage
applies. -/
def runnableWork (files : List UploadedFileState) : List (String × StageId) :=
  allStages.flatMap (fun st =>
    (files.filter (fun f => stageRunnable f st)).map (fun f => (f.id, st)))

/-- State-passing form of runnableWork: the source predicates only read the
component state and perform no state update, so the state is returned
untouched. -/
def runnableWorkS (files : List UploadedFileState) :
    List (String × StageId) × List UploadedFileState :=
  (runnableWork files, files)

/-- Writing one extraction outcome back into a file record: success stores
the text, failure stores the error message; either way the in-progress flag
is cleared. -/
def applyExtractionResult (f : UploadedFileState) (r : CallResult ExtractedText) :
    UploadedFileState :=
  match r with
  | .ok et => { f with extractedText := some et, isExtracting := false }
  | .thrown msg => { f with extractionError := some msg, isExtracting := false }

/-- The extractTextFromFiles batch loop of the DocumentAnalyzer component:
every file passing the needsExtraction filter is marked in progress, run
through extractTextFromFile, and updated with the outcome; other files are
untouched.  callOf gives the remote oracle of each file by id. -/
def extractTextFromFiles (files : List UploadedFileState)
    (callOf : String → Nat → CallOutcome ExtractedText) : List UploadedFileState :=
  files.map (fun f =>
    if needsExtraction f then
      applyExtractionResult { f with isExtracting := true }
        (extractTextFromFile (some f.file) f.ftype (callOf f.id)).result
    else f)

/-! ## The analyze-image API route (src/app/api/analyze-image/route.ts) -/

/-- The raw object-detection payload of the Hugging Face DETR model: label
and a score in the unit interval. -/
structure HFObject where
  label : String
  score : ℚ
deriving DecidableEq

/-- detectObjectsWithHuggingFace: maps the model response to labels with
rounded percentage confidence, and swallows any upstream error into an
empty object list. -/
def detectObjectsWithHuggingFace (resp : CallResult (List HFObject)) : List DetectedObject :=
  match resp with
  | .thrown _ => []
  | .ok objs => objs.map (fun o => ⟨o.label, jsRound (o.score * 100)⟩)

/-- analyzeImageWithHuggingFace: extracts generated text from the BLIP
response, substituting a placeholder for a missing or empty caption, and
rethrows upstream errors. -/
def analyzeImageWithHuggingFace (resp : CallResult (Option String)) : CallResult String :=
  match resp with
  | .thrown msg => .thrown msg
  | .ok generated =>
    match generated with
    | none => .ok "Unable to analyze image"
    | some tdesc => .ok (if tdesc.data.isEmpty then "Unable to analyze image" else tdesc)

/-- The common-word stop list of extractTagsFromDescription. -/
def commonWords : List String :=
  ["the", "a", "an", "and", "or", "but", "in", "on", "at", "to", "for", "of", "with",
    "by", "is", "are", "was", "were"]

/-- Keeps word characters and whitespace, dropping punctuation, as the
replace call of extractTagsFromDescription does. -/
def keepWordChars (l : List Char) : List Char :=
  l.filter (fun c => c.isAlphanum || c == '_' || c.isWhitespace)

/-- Splits a character list into its maximal non-whitespace runs. -/
def splitWsAux : List Char → List Char → List (List Char)
  | [], acc => if acc.isEmpty then [] else [acc.reverse]
  | c :: cs, acc =>
    if c.isWhitespace then
      if acc.isEmpty then splitWsAux cs [] else acc.reverse :: splitWsAux cs []
    else splitWsAux cs (c :: acc)

/-- First-occurrence deduplication, as iterating a JavaScript Set does. -/
def dedupFirstAux (seen : List String) : List String → List String
  | [] => []
  | w :: ws =>
    if seen.any (fun s => s == w) then dedupFirstAux seen ws
    else w :: dedupFirstAux (w :: seen) ws

/-- extractTagsFromDescription: lowercase, strip punctuation, split on
whitespace, keep words longer than two characters that are not stop words,
deduplicate preserving order and take at most five. -/
def extractTagsFromDescription (description : String) : List String :=
  let words := (splitWsAux (keepWordChars (jsToLower description).data) []).map String.mk
  let filtered := words.filter (fun w => w.length > 2 && !(commonWords.any (fun c => c == w)))
  (dedupFirstAux [] filtered).take 5

/-- The HTTP response of the analyze-image route, flattened: status code,
success flag, optional analysis payload, optional error and warning. -/
structure ImageRouteResponse where
  status : Nat
  success : Bool
  analysis : Option ImageAnalysisResult
  error : Option String
  warning : Option String
deriving DecidableEq

/-- The degraded fallback analysis the route returns when the Hugging Face
captioning call fails: placeholder object list, placeholder scene
description and default visual features. -/
def fallbackAnalysis (f : JsFile) : ImageAnalysisResult where
  objectDetection := ⟨[⟨"image", 50⟩], 1⟩
  sceneAnalysis :=
    ⟨"Image analysis temporarily unavailable. Please try again later.", ["image"], 50⟩
  textAnalysis := ⟨"", []⟩
  visualFeatures :=
    ⟨["#808080"], "image", false, jsIncludes f.type "jpeg" || jsIncludes f.type "jpg", false⟩
  metadata := ⟨0, 0, f.type, f.size⟩

/-- The successful analysis object the route builds from the caption and the
detected objects. -/
def buildImageAnalysis (f : JsFile) (description : String) (objects : List DetectedObject) :
    ImageAnalysisResult where
  objectDetection := ⟨objects.take 10, objects.length⟩
  sceneAnalysis := ⟨description, extractTagsFromDescription description, 85⟩
  textAnalysis := ⟨"", []⟩
  visualFeatures :=
    ⟨["#808080"],
      if jsIncludes f.type "jpeg" || jsIncludes f.type "jpg" then "photo" else "image",
      jsIncludes (jsToLower description) "text" || jsIncludes (jsToLower description) "sign",
      jsIncludes f.type "jpeg" || jsIncludes f.type "jpg",
      jsIncludes f.type "svg" || jsIncludes (jsToLower description) "drawing"⟩
  metadata := ⟨0, 0, f.type, f.size⟩

/-- The POST handler of the analyze-image route.  After the input checks it
runs the captioning call; if that call throws, the route answers 200 with
success true, the degraded fallback analysis and a warning, instead of
failing.  Otherwise it runs object detection (whose errors collapse to an
empty list) and answers with the built analysis. -/
def analyzeImagePOST (file : Option JsFile) (captionResp : CallResult (Option String))
    (detectResp : CallResult (List HFObject)) : ImageRouteResponse :=
  match file with
  | none => ⟨400, false, none, some "No file provided", none⟩
  | some f =>
    if !(jsStartsWith f.type "image/") then
      ⟨400, false, none, some "File must be an image", none⟩
    else if f.size > 10 * 1024 * 1024 then
      ⟨400, false, none, some "Image file too large. Maximum size is 10MB.", none⟩
    else
      match analyzeImageWithHuggingFace captionResp with
      | .thrown _ =>
        ⟨200, true, some (fallbackAnalysis f), none,
          some "Using basic analysis due to API limitations"⟩
      | .ok description =>
        let objects := detectObjectsWithHuggingFace detectResp
        ⟨200, true, some (buildImageAnalysis f description objects), none, none⟩

/-! ## calculateCompressionRatio (src/lib/summary-generation.ts)

JavaScript numbers are modelled as exact rationals; the zero checks are the
falsiness tests of the source. -/

/-- calculateCompressionRatio: zero on degenerate inputs, otherwise the
rounded percentage of words removed. -/
def calculateCompressionRatio (originalWordCount summaryWordCount : ℚ) : ℤ :=
  if originalWordCount = 0 ∨ summaryWordCount = 0 ∨ originalWordCount ≤ 0 ∨
      summaryWordCount < 0 then 0
  else if summaryWordCount > originalWordCount then 0
  else jsRound ((1 - summaryWordCount / originalWordCount) * 100)

/-! ## Executor lemmas -/

/-- The retry loop performs at most fuel remote invocations. -/
theorem retryGo_attempts_le (P : RetryPolicy) (call : Nat → CallOutcome α) :
    ∀ fuel attempt lastError, (retryGo P call attempt fuel lastError).attempts ≤ fuel := by
  intro fuel
  induction fuel with
  | zero => intro a le; simp [retryGo]
  | succ n ih =>
    intro a le
    rw [retryGo]
    cases call a with
    | success r => simp
    | failure e =>
      simp only
      split
      · simp
      · split
        · simp
        · split
          · simp
          · simpa using Nat.succ_le_succ (ih (a + 1) (some e))

/-- Unfolding the retry loop at a timed-out attempt: the executor rethrows
the timeout message at once. -/
theorem retryGo_abort (P : RetryPolicy) (call : Nat → CallOutcome α)
    (attempt fuel : Nat) (lastError : Option JsError) (e : JsError)
    (hc : call attempt = CallOutcome.failure e) (hn : e.name = "AbortError") :
    retryGo P call attempt (fuel + 1) lastError = ⟨.thrown P.timeoutMsg, 1, []⟩ := by
  rw [retryGo, hc]
  simp [hn]

/-- Unfolding the retry loop at a validation-classified failure: the
executor rethrows the message at once. -/
theorem retryGo_validation (P : RetryPolicy) (call : Nat → CallOutcome α)
    (attempt fuel : Nat) (lastError : Option JsError) (e : JsError)
    (hc : call attempt = CallOutcome.failure e) (hn : ¬e.name = "AbortError")
    (hv : P.isValidationMsg e.message = true) :
    retryGo P call attempt (fuel + 1) lastError = ⟨.thrown e.message, 1, []⟩ := by
  rw [retryGo, hc]
  simp [hn, hv]

/-- When no failing attempt carries a rate-limit message, every wait the
loop executes is the standard backoff of its attempt. -/
theorem retryGo_waits_std (P : RetryPolicy) (call : Nat → CallOutcome α)
    (hcall : ∀ n e, call n = CallOutcome.failure e → jsIncludes e.message "rate limit" = false) :
    ∀ fuel attempt lastError kw, kw ∈ (retryGo P call attempt fuel lastError).waitEvents →
      kw.2 = 2 ^ (kw.1 - 1) * 1000 := by
  intro fuel
  induction fuel with
  | zero => intro a le kw h; simp [retryGo] at h
  | succ n ih =>
    intro a le kw h
    rw [retryGo] at h
    cases hc : call a with
    | success r => rw [hc] at h; simp at h
    | failure e =>
      rw [hc] at h
      simp only at h
      split at h
      · simp at h
      · split at h
        · simp at h
        · split at h
          · simp [hcall a e hc] at h
          · simp only [hcall a e hc, Bool.false_eq_true, if_false, List.nil_append,
              List.mem_cons] at h
            rcases h with h | h
            · rw [h]
            · exact ih (a + 1) (some e) kw h

/-- Every trace result is either a typed success or a thrown message. -/
theorem runTrace_result_shape (tr : RunTrace α) :
    (∃ v, tr.result = CallResult.ok v) ∨ (∃ m, tr.result = CallResult.thrown m) := by
  cases h : tr.result with
  | ok v => exact Or.inl ⟨v, rfl⟩
  | thrown m => exact Or.inr ⟨m, rfl⟩

/-- A pdf file accepted by every pre-dispatch check. -/
def pdfFileA : JsFile := ⟨"doc.pdf", 100, "application/pdf"⟩

/-- C5: every call to the resilient executors (extractTextFromFile and
generateSummary) performs at most the hard-coded three remote invocations
and always returns, with either a typed success or a thrown classified
failure message. -/
theorem C5_executor_terminates_bounded :
    ∀ (file : Option JsFile) (t : FileType) (call : Nat → CallOutcome ExtractedText)
      (text fileName : String) (len : SummaryLength)
      (scall : Nat → CallOutcome GeneratedSummary),
      (extractTextFromFile file t call).attempts ≤ 3 ∧
      (generateSummary text fileName len scall).attempts ≤ 3 ∧
      ((∃ v, (extractTextFromFile file t call).result = CallResult.ok v) ∨
        (∃ m, (extractTextFromFile file t call).result = CallResult.thrown m)) ∧
      ((∃ v, (generateSummary text fileName len scall).result = CallResult.ok v) ∨
        (∃ m, (generateSummary text fileName len scall).result = CallResult.thrown m)) := by
  intro file t call text fileName len scall
  refine ⟨?_, ?_, runTrace_result_shape _, runTrace_result_shape _⟩
  · cases h : extractValidationError file t with
    | some msg => simp [extractTextFromFile, h]
    | none => simpa [extractTextFromFile, h] using retryGo_attempts_le (extractPolicy t) call 3 1 none
  · cases h : summaryValidationError text fileName with
    | some msg => simp [generateSummary, h]
    | none => simpa [generateSummary, h] using retryGo_attempts_le summaryPolicy scall 3 1 none

/-- An oracle that always fails with a generic transient error. -/
def genericFailCallS : Nat → CallOutcome GeneratedSummary :=
  fun _ => CallOutcome.failure ⟨"Error", "boom"⟩

/-- C1 counterexample: a five-word text is a validation failure of
generateSummary, yet it costs zero remote-call attempts, not exactly one:
the input validation throws before the loop performs any invocation. -/
theorem C1_counterexample :
    (generateSummary "one two three four five" "file.txt" SummaryLength.medium
        genericFailCallS).attempts = 0 ∧
    (generateSummary "one two three four five" "file.txt" SummaryLength.medium
        genericFailCallS).result =
      CallResult.thrown "Text too short: Minimum 10 words required for summarization" ∧
    ¬(generateSummary "one two three four five" "file.txt" SummaryLength.medium
        genericFailCallS).attempts = 1 := by decide

/-- C1 amended: validation failures are never retried; the enumerated input
validations (empty or oversized or mistyped file, text under 10 or over
15000 words) are rejected before any remote call and so cost zero remote
invocations, while a remote failure whose message is classified as
validation ends the call directly after the single attempt that produced
it, with no backoff wait. -/
theorem C1_validation_never_retried :
    (∀ (file : Option JsFile) (t : FileType) (call : Nat → CallOutcome ExtractedText) msg,
      extractValidationError file t = some msg →
        extractTextFromFile file t call = ⟨CallResult.thrown msg, 0, []⟩) ∧
    (∀ (text fileName : String) (len : SummaryLength)
        (call : Nat → CallOutcome GeneratedSummary) msg,
      summaryValidationError text fileName = some msg →
        generateSummary text fileName len call = ⟨CallResult.thrown msg, 0, []⟩) ∧
    (∀ (file : Option JsFile) (t : FileType) (call : Nat → CallOutcome ExtractedText) e,
      extractValidationError file t = none →
      call 1 = CallOutcome.failure e →
      ¬e.name = "AbortError" →
      extractIsValidationMsg e.message = true →
        extractTextFromFile file t call = ⟨CallResult.thrown e.message, 1, []⟩) ∧
    (∀ (text fileName : String) (len : SummaryLength)
        (call : Nat → CallOutcome GeneratedSummary) e,
      summaryValidationError text fileName = none →
      call 1 = CallOutcome.failure e →
      ¬e.name = "AbortError" →
      summaryIsValidationMsg e.message = true →
        generateSummary text fileName len call = ⟨CallResult.thrown e.message, 1, []⟩) := by
  refine ⟨?_, ?_, ?_, ?_⟩
  · intro file t call msg h
    simp [extractTextFromFile, h]
  · intro text fileName len call msg h
    simp [generateSummary, h]
  · intro file t call e hpre hc hn hv
    simp only [extractTextFromFile, hpre]
    exact retryGo_validation (extractPolicy t) call 1 2 none e hc hn hv
  · intro text fileName len call e hpre hc hn hv
    simp only [generateSummary, hpre]
    exact retryGo_validation summaryPolicy call 1 2 none e hc hn hv

/-- An oracle whose remote response carries a validation-classified
message. -/
def invalidMsgCall : Nat → CallOutcome ExtractedText :=
  fun _ => CallOutcome.failure ⟨"Error", "Invalid data returned"⟩

/-- C1 witness: a first-attempt remote failure classified as validation
ends extractTextFromFile after exactly one invocation with no waits. -/
theorem C1_witness :
    extractTextFromFile (some pdfFileA) FileType.pdf invalidMsgCall =
      ⟨CallResult.thrown "Invalid data returned", 1, []⟩ :=
  C1_validation_never_retried.2.2.1 (some pdfFileA) FileType.pdf invalidMsgCall
    ⟨"Error", "Invalid data returned"⟩ (by decide) rfl (by decide) (by decide)

/-- An oracle whose first attempt is cancelled by the timeout controller:
the thrown error carries the AbortError name. -/
def abortCall : Nat → CallOutcome ExtractedText :=
  fun _ => CallOutcome.failure ⟨"AbortError", "The operation was aborted"⟩

/-- C2 counterexample: an AbortError on the first of three attempts is a
non-final attempt, yet extractTextFromFile terminates at once with the
timeout message, one attempt and no backoff wait: a timed-out attempt is
never retried. -/
theorem C2_counterexample :
    extractTextFromFile (some pdfFileA) FileType.pdf abortCall =
      ⟨CallResult.thrown "Timeout: PDF parsing took too long. Try with a smaller file.",
        1, []⟩ ∧
    ¬2 ≤ (extractTextFromFile (some pdfFileA) FileType.pdf abortCall).attempts := by decide

/-- C2 amended: when an attempt exceeds its timeout budget the underlying
call is aborted and the failure is reported with a timeout message, but it
is never retried: both executors rethrow immediately on the first timed-out
attempt, with no backoff wait, even though attempts remain. -/
theorem C2_timeout_never_retried :
    (∀ (file : Option JsFile) (t : FileType) (call : Nat → CallOutcome ExtractedText) e,
      extractValidationError file t = none →
      call 1 = CallOutcome.failure e →
      e.name = "AbortError" →
        extractTextFromFile file t call = ⟨CallResult.thrown (extractTimeoutMsg t), 1, []⟩) ∧
    (∀ (text fileName : String) (len : SummaryLength)
        (call : Nat → CallOutcome GeneratedSummary) e,
      summaryValidationError text fileName = none →
      call 1 = CallOutcome.failure e →
      e.name = "AbortError" →
        generateSummary text fileName len call =
          ⟨CallResult.thrown "Timeout: Summary generation took too long. Try with shorter text.",
            1, []⟩) := by
  constructor
  · intro file t call e hpre hc hn
    simp only [extractTextFromFile, hpre]
    exact retryGo_abort (extractPolicy t) call 1 2 none e hc hn
  · intro text fileName len call e hpre hc hn
    simp only [generateSummary, hpre]
    exact retryGo_abort summaryPolicy call 1 2 none e hc hn

/-- C2 witness: the amended theorem evaluated on a concrete pdf file and a
concrete aborted first attempt. -/
theorem C2_witness :
    extractTextFromFile (some pdfFileA) FileType.pdf abortCall =
      ⟨CallResult.thrown (extractTimeoutMsg FileType.pdf), 1, []⟩ :=
  C2_timeout_never_retried.1 (some pdfFileA) FileType.pdf abortCall
    ⟨"AbortError", "The operation was aborted"⟩ (by decide) rfl rfl

/-- An oracle failing first with a rate-limited message and then with a
generic transient message. -/
def rateThenTransientCall : Nat → CallOutcome ExtractedText :=
  fun n =>
    if n = 1 then CallOutcome.failure ⟨"Error", "rate limit exceeded"⟩
    else CallOutcome.failure ⟨"Error", "server exploded"⟩

/-- C6 counterexample: with a RateLimited failure on attempt 1 followed by a
Transient failure on attempt 2, the total wait before attempt 2 is 3000
milliseconds (rate-limit wait plus standard backoff) while the wait before
attempt 3 is only 2000 milliseconds: the wait is not non-decreasing across
differing classifications. -/
theorem C6_counterexample :
    (extractTextFromFile (some pdfFileA) FileType.pdf rateThenTransientCall).waitEvents =
      [(1, 2000), (1, 1000), (2, 2000)] ∧
    waitBeforeNext (extractTextFromFile (some pdfFileA) FileType.pdf rateThenTransientCall) 1 =
      3000 ∧
    waitBeforeNext (extractTextFromFile (some pdfFileA) FileType.pdf rateThenTransientCall) 2 =
      2000 ∧
    ¬waitBeforeNext (extractTextFromFile (some pdfFileA) FileType.pdf rateThenTransientCall) 1 ≤
      waitBeforeNext (extractTextFromFile (some pdfFileA) FileType.pdf rateThenTransientCall) 2 := by
  decide

/-- C6 amended: as long as no attempt fails with a rate-limited message,
every wait of one executor call is the standard backoff 2 ^ (k - 1) * 1000
of the attempt k after which it happens, and the waits are therefore
non-decreasing in the attempt number; a rate-limited failure adds an extra
wait on top of the standard backoff, which is what breaks monotonicity in
the counterexample. -/
theorem C6_backoff_monotone_without_rate_limit :
    (∀ (file : Option JsFile) (t : FileType) (call : Nat → CallOutcome ExtractedText),
      (∀ n e, call n = CallOutcome.failure e → jsIncludes e.message "rate limit" = false) →
      ∀ kw1 ∈ (extractTextFromFile file t call).waitEvents,
        ∀ kw2 ∈ (extractTextFromFile file t call).waitEvents,
          kw1.1 ≤ kw2.1 → kw1.2 ≤ kw2.2) ∧
    (∀ (text fileName : String) (len : SummaryLength)
        (call : Nat → CallOutcome GeneratedSummary),
      (∀ n e, call n = CallOutcome.failure e → jsIncludes e.message "rate limit" = false) →
      ∀ kw1 ∈ (generateSummary text fileName len call).waitEvents,
        ∀ kw2 ∈ (generateSummary text fileName len call).waitEvents,
          kw1.1 ≤ kw2.1 → kw1.2 ≤ kw2.2) := by
  constructor
  · intro file t call hrate kw1 h1 kw2 h2 hk
    cases hpre : extractValidationError file t with
    | some msg => simp [extractTextFromFile, hpre] at h1
    | none =>
      simp only [extractTextFromFile, hpre] at h1 h2
      rw [retryGo_waits_std (extractPolicy t) call hrate 3 1 none kw1 h1,
        retryGo_waits_std (extractPolicy t) call hrate 3 1 none kw2 h2]
      exact Nat.mul_le_mul_right 1000
        (Nat.pow_le_pow_right (by norm_num) (Nat.sub_le_sub_right hk 1))
  · intro text fileName len call hrate kw1 h1 kw2 h2 hk
    cases hpre : summaryValidationError text fileName with
    | some msg => simp [generateSummary, hpre] at h1
    | none =>
      simp only [generateSummary, hpre] at h1 h2
      rw [retryGo_waits_std summaryPolicy call hrate 3 1 none kw1 h1,
        retryGo_waits_std summaryPolicy call hrate 3 1 none kw2 h2]
      exact Nat.mul_le_mul_right 1000
        (Nat.pow_le_pow_right (by norm_num) (Nat.sub_le_sub_right hk 1))

/-- An oracle failing every attempt with the same generic transient
message. -/
def transientOnlyCall : Nat → CallOutcome ExtractedText :=
  fun _ => CallOutcome.failure ⟨"Error", "boom"⟩

/-- C6 witness: in a run with only transient failures the wait after
attempt 1 is 1000 milliseconds, the wait after attempt 2 is 2000, and the
amended theorem yields their monotonicity. -/
theorem C6_witness :
    (1, 1000) ∈ (extractTextFromFile (some pdfFileA) FileType.pdf transientOnlyCall).waitEvents ∧
    (2, 2000) ∈ (extractTextFromFile (some pdfFileA) FileType.pdf transientOnlyCall).waitEvents ∧
    (1000 : Nat) ≤ 2000 := by
  refine ⟨by decide, by decide, ?_⟩
  refine C6_backoff_monotone_without_rate_limit.1 (some pdfFileA) FileType.pdf transientOnlyCall
    ?_ (1, 1000) (by decide) (2, 2000) (by decide) (by decide)
  intro n e he
  have h := CallOutcome.failure.inj he
  rw [← h]
  decide

/-- A freshly ingested pdf file record: every stage not started. -/
def freshFileState : UploadedFileState :=
  { id := "f1", file := pdfFileA, ftype := FileType.pdf }

/-- Per-file oracle under which every remote extraction attempt is aborted
by the timeout controller. -/
def abortCallOf : String → Nat → CallOutcome ExtractedText := fun _ => abortCall

/-- C3 counterexample: when the abort signal fires while the only file is
being extracted, the batch loop writes the pair as Failed - its
extractionError is set to the timeout message - instead of reverting it to
NotStarted (which would leave extractionError absent). -/
theorem C3_counterexample :
    extractTextFromFiles [freshFileState] abortCallOf =
      [{ freshFileState with
          isExtracting := false,
          extractionError :=
            some "Timeout: PDF parsing took too long. Try with a smaller file." }] ∧
    ¬(extractTextFromFiles [freshFileState] abortCallOf).map
        (fun f => f.extractionError) = [none] := by decide

/-- C3 amended: when the abort or timeout signal fires while a file is
InProgress in the extraction batch loop, the pair is written as Failed with
the timeout message and the in-progress flag cleared; it is not reverted to
NotStarted. -/
theorem C3_abort_marks_failed :
    ∀ (f : UploadedFileState) (callOf : String → Nat → CallOutcome ExtractedText)
      (e : JsError),
      needsExtraction f = true →
      extractValidationError (some f.file) f.ftype = none →
      callOf f.id 1 = CallOutcome.failure e →
      e.name = "AbortError" →
        extractTextFromFiles [f] callOf =
          [{ f with
              isExtracting := false,
              extractionError := some (extractTimeoutMsg f.ftype) }] := by
  intro f callOf e hneeds hpre hc hn
  have hrun : extractTextFromFile (some f.file) f.ftype (callOf f.id) =
      ⟨CallResult.thrown (extractTimeoutMsg f.ftype), 1, []⟩ := by
    simp only [extractTextFromFile, hpre]
    exact retryGo_abort (extractPolicy f.ftype) (callOf f.id) 1 2 none e hc hn
  simp [extractTextFromFiles, hneeds, hrun, applyExtractionResult]

/-- C3 witness: the amended theorem evaluated on the concrete fresh file and
the concrete aborting oracle. -/
theorem C3_witness :
    extractTextFromFiles [freshFileState] abortCallOf =
      [{ freshFileState with
          isExtracting := false
          extractionError := some (extractTimeoutMsg FileType.pdf) }] :=
  C3_abort_marks_failed freshFileState abortCallOf
    ⟨"AbortError", "The operation was aborted"⟩ (by decide) (by decide) rfl rfl

/-- C4: the specialized-analysis stage is runnable exactly when structure
analysis has succeeded with a classified document type among invoice,
contract and resume, on a file whose text is extracted and whose
specialized stage has not yet been attempted; for any other document type,
such as letter, the stage is never runnable. -/
theorem C4_specialized_eligibility :
    ∀ f : UploadedFileState,
      (f.documentStructure = none → needsSpecializedAnalysis f = false) ∧
      (∀ ds, f.documentStructure = some ds →
        specializedTypes.any (fun s => s == ds.documentType) = false →
        needsSpecializedAnalysis f = false) ∧
      (f.extractedText.isSome = true → f.specializedAnalysis = none →
        f.specializedAnalysisError = none →
        (needsSpecializedAnalysis f = true ↔
          ∃ ds, f.documentStructure = some ds ∧
            specializedTypes.any (fun s => s == ds.documentType) = true)) := by
  intro f
  refine ⟨?_, ?_, ?_⟩
  · intro h
    simp [needsSpecializedAnalysis, h]
  · intro ds h hmem
    simp [needsSpecializedAnalysis, h, hmem]
  · intro hext hsa hse
    constructor
    · intro h
      cases hds : f.documentStructure with
      | none => simp [needsSpecializedAnalysis, hds] at h
      | some ds =>
        refine ⟨ds, rfl, ?_⟩
        simpa [needsSpecializedAnalysis, hds, hext, hsa, hse] using h
    · rintro ⟨ds, hds, hmem⟩
      simp [needsSpecializedAnalysis, hds, hext, hsa, hse, hmem]

/-- A concrete successful extraction payload. -/
def extractedTextA : ExtractedText := ⟨"hello world", 2, 11, "doc.pdf", FileType.pdf⟩

/-- A file record whose structure analysis classified it as an invoice. -/
def invoiceFileState : UploadedFileState :=
  { id := "f2", file := pdfFileA, ftype := FileType.pdf,
    extractedText := some extractedTextA,
    documentStructure := some ⟨"invoice", 90⟩ }

/-- The same record classified as a letter. -/
def letterFileState : UploadedFileState :=
  { invoiceFileState with documentStructure := some ⟨"letter", 90⟩ }

/-- C4 witness: the invoice-classified record is runnable for specialized
analysis and the letter-classified record is not. -/
theorem C4_witness :
    needsSpecializedAnalysis invoiceFileState = true ∧
    needsSpecializedAnalysis letterFileState = false :=
  ⟨((C4_specialized_eligibility invoiceFileState).2.2 (by decide) rfl rfl).mpr
      ⟨⟨"invoice", 90⟩, rfl, by decide⟩,
    (C4_specialized_eligibility letterFileState).2.1 ⟨"letter", 90⟩ rfl (by decide)⟩

/-- C7: the work computation is idempotent: it performs no state update, so
evaluating it again on the state it returns yields the identical work list
and the identical state. -/
theorem C7_runnableWork_idempotent :
    ∀ (files : List UploadedFileState) (w1 : List (String × StageId))
      (s1 : List UploadedFileState),
      runnableWorkS files = (w1, s1) → runnableWorkS s1 = (w1, s1) := by
  intro files w1 s1 h
  injection h with hw hs
  subst hw
  subst hs
  rfl

/-- C7 witness: on the concrete one-file state the only runnable pair is
extraction, and re-evaluation returns the same pair and state. -/
theorem C7_witness :
    runnableWorkS [freshFileState] = ([("f1", StageId.extract)], [freshFileState]) :=
  C7_runnableWork_idempotent [freshFileState] [("f1", StageId.extract)] [freshFileState]
    (by decide)

/-- C8: when the upstream captioning call of the analyze-image route fails,
the route does not fail the file: it answers 200 with success set, the
degraded fallback analysis (placeholder object list, placeholder scene
description, default visual features) and a warning. -/
theorem C8_image_fallback_on_upstream_failure :
    ∀ (f : JsFile) (captionResp : CallResult (Option String))
      (detectResp : CallResult (List HFObject)) (msg : String),
      jsStartsWith f.type "image/" = true →
      ¬f.size > 10 * 1024 * 1024 →
      captionResp = CallResult.thrown msg →
        analyzeImagePOST (some f) captionResp detectResp =
          ⟨200, true, some (fallbackAnalysis f), none,
            some "Using basic analysis due to API limitations"⟩ := by
  intro f captionResp detectResp msg hty hsz hcap
  simp [analyzeImagePOST, hty, hsz, hcap, analyzeImageWithHuggingFace]

/-- A small jpeg file accepted by the route input checks. -/
def jpegFileB : JsFile := ⟨"photo.jpg", 2048, "image/jpeg"⟩

/-- C8 witness: the fallback response on a concrete jpeg file whose caption
call failed with an upstream 503. -/
theorem C8_witness :
    analyzeImagePOST (some jpegFileB) (CallResult.thrown "Hugging Face API error: 503")
        (CallResult.ok []) =
      ⟨200, true, some (fallbackAnalysis jpegFileB), none,
        some "Using basic analysis due to API limitations"⟩ :=
  C8_image_fallback_on_upstream_failure jpegFileB
    (CallResult.thrown "Hugging Face API error: 503") (CallResult.ok [])
    "Hugging Face API error: 503" (by decide) (by decide) rfl

/-- A webp image: its MIME type starts with image/ but is none of the five
types the standalone validator accepts. -/
def webpFile : JsFile := ⟨"photo.webp", 100, "image/webp"⟩

/-- C9 counterexample: for an image/webp file the standalone validateFile
rejects while the inline pre-dispatch validation of extractTextFromFile
accepts, so the two checks are not equivalent. -/
theorem C9_counterexample :
    ¬((validateFile (some webpFile) FileType.image).isValid = true ↔
      extractValidationError (some webpFile) FileType.image = none) := by decide

/-- C9 amended: for pdf inputs the standalone validator and the inline
pre-dispatch checks accept exactly the same files; for image inputs they
diverge, because the executor accepts any MIME type starting with image/
while validateFile only accepts the five listed image MIME types, with the
same extension fallback. -/
theorem C9_validator_matches_pdf_prechecks :
    ∀ file : Option JsFile,
      ((validateFile file FileType.pdf).isValid = true ↔
        extractValidationError file FileType.pdf = none) := by
  intro file
  cases file with
  | none => simp [validateFile, extractValidationError]
  | some f =>
    simp only [validateFile, extractValidationError]
    split_ifs <;> simp_all

/-- C9 witness: the amended equivalence evaluated on the concrete pdf
file. -/
theorem C9_witness :
    (validateFile (some pdfFileA) FileType.pdf).isValid = true ↔
      extractValidationError (some pdfFileA) FileType.pdf = none :=
  C9_validator_matches_pdf_prechecks (some pdfFileA)

/-- C10: calculateCompressionRatio always returns an integer between 0 and
100, and returns 0 whenever the summary word count exceeds the original,
the original count is non-positive, or either count is zero. -/
theorem C10_compression_ratio_bounds :
    ∀ o s : ℚ,
      0 ≤ calculateCompressionRatio o s ∧ calculateCompressionRatio o s ≤ 100 ∧
      ((s > o ∨ o ≤ 0 ∨ o = 0 ∨ s = 0) → calculateCompressionRatio o s = 0) := by
  intro o s
  unfold calculateCompressionRatio
  split_ifs with h1 h2
  · exact ⟨le_refl 0, by norm_num, fun _ => rfl⟩
  · exact ⟨le_refl 0, by norm_num, fun _ => rfl⟩
  · push_neg at h1 h2
    obtain ⟨ho0, hs0, hop, hsn⟩ := h1
    have hs : 0 < s := lt_of_le_of_ne hsn (Ne.symm hs0)
    have hdiv1 : s / o ≤ 1 := (div_le_one hop).mpr h2
    have hdivpos : 0 < s / o := div_pos hs hop
    have hq0 : (0 : ℚ) ≤ (1 - s / o) * 100 := by nlinarith
    have hq100 : (1 - s / o) * 100 < 100 := by nlinarith
    refine ⟨?_, ?_, ?_⟩
    · exact Int.le_floor.mpr (by push_cast; linarith)
    · exact Int.lt_add_one_iff.mp (Int.floor_lt.mpr (by push_cast; linarith))
    · intro hcond
      exfalso
      rcases hcond with h | h | h | h
      · exact absurd h (not_lt.mpr h2)
      · exact absurd h (not_le.mpr hop)
      · exact ho0 h
      · exact hs0 h

/-- C10 witness: the theorem evaluated at concrete inputs: a longer summary
yields 0, and a 200 to 50 word compression stays within the bounds. -/
theorem C10_witness :
    calculateCompressionRatio 100 200 = 0 ∧
    0 ≤ calculateCompressionRatio 200 50 ∧
    calculateCompressionRatio 200 50 ≤ 100 :=
  ⟨(C10_compression_ratio_bounds 100 200).2.2 (Or.inl (by norm_num)),
    (C10_compression_ratio_bounds 200 50).1,
    (C10_compression_ratio_bounds 200 50).2.1⟩
